import Mathlib

/-!
Verification of the KDTSM airspace admission engine.

The development shallowly embeds the server-side admission pipeline of
`src/server/routes/flights.js` (path sampling, bounding boxes, spatial
conflict detection, the conflict query over the in-memory flight registry,
`validateFlightRequest`, and the route handlers that mutate flight status)
together with the client-side geometry of the map module (ray-casting
point-in-polygon test, restricted-area classification, trajectory border
sampling).

Coordinates and radii are rationals.  Timestamps are integers
(milliseconds, mirroring JavaScript `Date` values).  The haversine
distance function `calculateDistance` and the cosine used for the
circle bounding box live in a data module that computes with `Math.sin`
and `Math.cos`; both are threaded through the development as explicit
function parameters (`dist`, `cosd`), so every theorem below holds for
the actual transcendental functions in particular.
-/

namespace KDTSM

/-- A geographic point: latitude and longitude in degrees. -/
structure Point where
  lat : ℚ
  lng : ℚ
deriving DecidableEq, Repr

/-- Axis-aligned bounding box in degrees, as used by `getFlightBounds`. -/
structure Bounds where
  north : ℚ
  south : ℚ
  east : ℚ
  west : ℚ
deriving DecidableEq, Repr

/-- An operation area: the tagged `{ type, center, radius, bounds }`
object of the source (`area.type === 'circle'` ∨ rectangle with
`area.bounds`), with the derived center always present. -/
inductive Area where
  | circle (center : Point) (radius : ℚ)
  | rect (center : Point) (bounds : Bounds)
deriving DecidableEq, Repr

/-- Flight lifecycle status, the six values of the data model. -/
inductive Status where
  | pending
  | approved
  | active
  | completed
  | cancelled
  | rejected
deriving DecidableEq, Repr

/-- The terminal statuses `['cancelled', 'completed', 'rejected']`
excluded by the conflict-candidate filter in `checkFlightConflicts`. -/
def isTerminal : Status → Bool
  | Status.cancelled => true
  | Status.completed => true
  | Status.rejected => true
  | _ => false

/-- The non-terminal statuses, `status ∈ {pending, approved, active}`. -/
def nonTerminal : Status → Bool
  | Status.pending => true
  | Status.approved => true
  | Status.active => true
  | _ => false

/-- The payload of a flight request / stored flight that the admission
logic reads: `waypoints`, `operationArea`, `maxAltitude`,
`scheduledStart`, `scheduledEnd`.  `waypoints` is `Option` because the
source distinguishes an absent field (`flightData.waypoints` falsy)
from a present, possibly empty array. -/
structure FlightData where
  waypoints : Option (List Point)
  operationArea : Option Area
  maxAltitude : Option ℚ
  scheduledStart : ℤ
  scheduledEnd : ℤ
deriving DecidableEq, Repr

/-- The representative altitude `flight.maxAltitude || 100`: a missing
field defaults to 100, and — because `0` is falsy in JavaScript — so
does an explicit altitude of `0`. -/
def altOf : Option ℚ → ℚ
  | none => 100
  | some a => if a = 0 then 100 else a

/-- Linear interpolation of the interior samples of one segment:
`numSamples = Math.floor(segmentDistance / sampleDistance)` points at
the fractions `t = j / (numSamples + 1)`, `j = 1 .. numSamples`. -/
def sampleSegment (dist : Point → Point → ℚ) (p1 p2 : Point) (spacing : ℚ) : List Point :=
  let numSamples : ℕ := (⌊dist p1 p2 / spacing⌋).toNat
  (List.range numSamples).map (fun (j : ℕ) =>
    let t : ℚ := ((j : ℚ) + 1) / ((numSamples : ℚ) + 1)
    ⟨p1.lat + t * (p2.lat - p1.lat), p1.lng + t * (p2.lng - p1.lng)⟩)

/-- The per-segment tail of `generatePathSamples`: interior samples of
the segment from the previous waypoint, then the segment's endpoint. -/
def generatePathSamplesGo (dist : Point → Point → ℚ) (spacing : ℚ) :
    Point → List Point → List Point
  | _, [] => []
  | prev, w :: rest =>
      sampleSegment dist prev w spacing ++ w :: generatePathSamplesGo dist spacing w rest

/-- `generatePathSamples(waypoints, sampleDistance = 50)`: the first
waypoint, then for every consecutive pair the interior samples followed
by the second endpoint. -/
def generatePathSamples (dist : Point → Point → ℚ) (wps : List Point) (spacing : ℚ) :
    List Point :=
  match wps with
  | [] => []
  | w :: rest => w :: generatePathSamplesGo dist spacing w rest

/-- Maximum of a rational over a nonempty list, seeded with the head
(`Math.max(...lats)`). -/
def foldMax (x : ℚ) (l : List ℚ) : ℚ := l.foldl max x

/-- Minimum of a rational over a nonempty list, seeded with the head. -/
def foldMin (x : ℚ) (l : List ℚ) : ℚ := l.foldl min x

/-- `getFlightBounds`: a circle projects its radius to degrees
(longitude corrected by the cosine of the latitude), a rectangle
returns its stored bounds, otherwise the waypoint extremes; `none`
when the flight has neither an area nor waypoints. -/
def getFlightBounds (cosd : ℚ → ℚ) (fd : FlightData) : Option Bounds :=
  match fd.operationArea with
  | some (Area.circle c r) =>
      let radiusDeg := r / 111320
      some ⟨c.lat + radiusDeg, c.lat - radiusDeg,
            c.lng + radiusDeg / cosd c.lat, c.lng - radiusDeg / cosd c.lat⟩
  | some (Area.rect _ b) => some b
  | none =>
      match fd.waypoints with
      | some (w :: ws) =>
          some ⟨foldMax w.lat (ws.map Point.lat), foldMin w.lat (ws.map Point.lat),
                foldMax w.lng (ws.map Point.lng), foldMin w.lng (ws.map Point.lng)⟩
      | _ => none

/-- `boundsOverlap(bounds1, bounds2, buffer = 0.005)`: false when either
box is missing, otherwise the negated separation test (the source's
`b1.west - buffer > b2.east + buffer` comparisons are spelled with `<`). -/
def boundsOverlap (b1 b2 : Option Bounds) (buffer : ℚ) : Bool :=
  match b1, b2 with
  | some x, some y =>
      !(decide (x.east + buffer < y.west - buffer) ||
        decide (y.east + buffer < x.west - buffer) ||
        decide (x.north + buffer < y.south - buffer) ||
        decide (y.north + buffer < x.south - buffer))
  | _, _ => false

/-- `isPointInArea`: circle membership by distance, rectangle membership
by its bounds box. -/
def isPointInArea (dist : Point → Point → ℚ) (p : Point) (area : Area) : Bool :=
  match area with
  | Area.circle c r => decide (dist p c ≤ r)
  | Area.rect _ b =>
      decide (b.south ≤ p.lat) && decide (p.lat ≤ b.north) &&
      decide (b.west ≤ p.lng) && decide (p.lng ≤ b.east)

/-- One step of the running minimum: `if (dist < minDistance) minDistance = dist`,
with `none` standing for the initial `Infinity`. -/
def minPairStep (dist : Point → Point → ℚ) (s1 : Point) (acc : Option ℚ)
    (s2 : Point) : Option ℚ :=
  match acc with
  | none => some (dist s1 s2)
  | some m => if dist s1 s2 < m then some (dist s1 s2) else some m

/-- The inner loop of the pairwise minimum: one sample of the first
path against every sample of the second. -/
def minPairRow (dist : Point → Point → ℚ) (l2 : List Point) (acc : Option ℚ)
    (s1 : Point) : Option ℚ :=
  l2.foldl (minPairStep dist s1) acc

/-- The running minimum over all pairs of samples, `none` standing for
the initial `Infinity`. -/
def minPairDist (dist : Point → Point → ℚ) (l1 l2 : List Point) : Option ℚ :=
  l1.foldl (minPairRow dist l2) none

/-- The `conflictType` tags emitted by `checkSpatialConflict`. -/
inductive ConflictType where
  | area_overlap
  | path_enters_area
  | path_proximity
deriving DecidableEq, Repr

/-- The result object of `checkSpatialConflict`. -/
structure SpatialResult where
  hasConflict : Bool
  minDistance : Option ℚ
  ctype : Option ConflictType
deriving DecidableEq, Repr

/-- The samples of a flight's waypoint path,
`flight.waypoints ? generatePathSamples(flight.waypoints) : []`. -/
def samplesOf (dist : Point → Point → ℚ) (fd : FlightData) : List Point :=
  match fd.waypoints with
  | some l => generatePathSamples dist l 50
  | none => []

/-- `checkSpatialConflict(flight1, flight2)`: bounding-box fast reject,
then circle/circle distance (other area pairs conflict outright), then
path-into-area containment in both directions, then the 200 m minimum
pairwise sample distance. -/
def checkSpatialConflict (dist : Point → Point → ℚ) (cosd : ℚ → ℚ)
    (f1 f2 : FlightData) : SpatialResult :=
  let bounds1 := getFlightBounds cosd f1
  let bounds2 := getFlightBounds cosd f2
  if !(boundsOverlap bounds1 bounds2 (1/200)) then ⟨false, none, none⟩
  else
    let areaStep : Option SpatialResult :=
      match f1.operationArea, f2.operationArea with
      | some a1, some a2 =>
          match a1, a2 with
          | Area.circle c1 r1, Area.circle c2 r2 =>
              if dist c1 c2 < r1 + r2 then
                some ⟨true, some (dist c1 c2), some ConflictType.area_overlap⟩
              else none
          | _, _ => some ⟨true, some 0, some ConflictType.area_overlap⟩
      | _, _ => none
    match areaStep with
    | some r => r
    | none =>
      let samples1 := samplesOf dist f1
      let samples2 := samplesOf dist f2
      let hit1 : Bool :=
        match f1.operationArea with
        | some a1 => samples2.any (fun s => isPointInArea dist s a1)
        | none => false
      if hit1 then ⟨true, some 0, some ConflictType.path_enters_area⟩
      else
        let hit2 : Bool :=
          match f2.operationArea with
          | some a2 => samples1.any (fun s => isPointInArea dist s a2)
          | none => false
        if hit2 then ⟨true, some 0, some ConflictType.path_enters_area⟩
        else
          match minPairDist dist samples1 samples2 with
          | some d =>
              if d < 200 then ⟨true, some d, some ConflictType.path_proximity⟩
              else ⟨false, none, none⟩
          | none => ⟨false, none, none⟩

/-- JavaScript `Math.round`: round half toward positive infinity. -/
def jsRound (q : ℚ) : ℤ := ⌊q + 1/2⌋

/-- A conflict record pushed by `checkFlightConflicts` (string message
fields omitted). -/
structure ConflictRecord where
  flightId : ℕ
  conflictType : Option ConflictType
  minDistance : ℤ
  scheduledStart : ℤ
  scheduledEnd : ℤ
deriving DecidableEq, Repr

/-- The check names of the validation report. -/
inductive CheckName where
  | border_check
  | area_border_check
  | altitude_check
  | zone_check
  | time_check
  | daylight_check
  | traffic_conflict
deriving DecidableEq, Repr

/-- Check severities. -/
inductive Severity where
  | error
  | warning
  | info
deriving DecidableEq, Repr

/-- One entry of `validation.checks` (message strings omitted). -/
structure Check where
  name : CheckName
  passed : Bool
  severity : Severity
  conflicting : Option ConflictRecord
deriving DecidableEq, Repr

/-- The object returned by `validateFlightRequest`. -/
structure ValidationReport where
  isValid : Bool
  checks : List Check
deriving DecidableEq, Repr

/-- A flight as stored in the in-memory registry (`inMemoryFlights`). -/
structure Stored where
  id : ℕ
  userId : ℕ
  data : FlightData
  status : Status
  validation : ValidationReport
deriving DecidableEq, Repr

/-- Replace the status of a stored flight, as `flight.status = status`. -/
def setStatus (f : Stored) (s : Status) : Stored :=
  ⟨f.id, f.userId, f.data, s, f.validation⟩

/-- The in-memory candidate filter of `checkFlightConflicts`: drop the
terminal statuses, the excluded id, and every flight whose time window
misses `[newStart, newEnd)` under the half-open intersection test
`newStart < existingEnd && newEnd > existingStart`. -/
def conflictCandidates (registry : List Stored) (newStart newEnd : ℤ)
    (excludeId : Option ℕ) : List Stored :=
  registry.filter (fun f =>
    !(isTerminal f.status) &&
    (match excludeId with
     | some i => decide (f.id ≠ i)
     | none => true) &&
    decide (newStart < f.data.scheduledEnd) &&
    decide (f.data.scheduledStart < newEnd))

/-- The 30 m vertical-separation test
`Math.abs((newFlight.maxAltitude || 100) - (flight.maxAltitude || 100)) < 30`. -/
def altitudeOverlap (a b : Option ℚ) : Bool :=
  decide (|altOf a - altOf b| < 30)

/-- `checkFlightConflicts(newFlight, excludeId)`: for every candidate,
skip it on 30 m vertical separation, otherwise run the spatial test
and emit a record when it conflicts. -/
def checkFlightConflicts (dist : Point → Point → ℚ) (cosd : ℚ → ℚ)
    (registry : List Stored) (nf : FlightData) (excludeId : Option ℕ) :
    List ConflictRecord :=
  (conflictCandidates registry nf.scheduledStart nf.scheduledEnd excludeId).filterMap
    (fun f =>
      if altitudeOverlap nf.maxAltitude f.data.maxAltitude then
        let sc := checkSpatialConflict dist cosd nf f.data
        if sc.hasConflict then
          some ⟨f.id, sc.ctype, jsRound (sc.minDistance.getD 0),
                f.data.scheduledStart, f.data.scheduledEnd⟩
        else none
      else none)

/-- Severity of a restricted-zone violation.  Modelled from the spec:
the zone classifier of the missing data module reports either a no-fly
violation (error) or an altitude-capped caution (warning). -/
inductive ZoneSeverity where
  | zerror
  | zwarning
deriving DecidableEq, Repr

/-- The static configuration injected into the admission pipeline: the
border membership test, the restricted-zone classifier, the distance
function and the degree-cosine.  The first two live in the data module
that is not part of the embedded sources and are therefore quantified
over; every theorem holds for the actual configuration in particular. -/
structure Env where
  isWithinKosovo : Point → Bool
  checkRestrictedZone : Point → ℚ → List ZoneSeverity
  dist : Point → Point → ℚ
  cosd : ℚ → ℚ

/-- Modelled from the spec: `KCAA_REGULATIONS.maxAltitudeAGL` from the
missing data module — the regulatory ceiling of 120 m AGL (spec §4.6,
also the `maxAltitude` of every drone profile in the source). -/
def maxAltitudeAGL : ℚ := 120

/-- Whether the border check applies: `flightData.waypoints &&
flightData.waypoints.length > 0`. -/
def borderApplicable (fd : FlightData) : Bool :=
  match fd.waypoints with
  | some (_ :: _) => true
  | _ => false

/-- The border-check entries: one error per out-of-border waypoint,
or a single passing entry. -/
def borderChecks (env : Env) (fd : FlightData) : List Check :=
  match fd.waypoints with
  | some (w :: ws) =>
      let fails := (w :: ws).filter (fun p => !(env.isWithinKosovo p))
      if fails.isEmpty then [⟨CheckName.border_check, true, Severity.info, none⟩]
      else fails.map (fun _ => ⟨CheckName.border_check, false, Severity.error, none⟩)
  | _ => []

/-- Whether every waypoint passes the border test (vacuously true
without waypoints). -/
def borderOk (env : Env) (fd : FlightData) : Bool :=
  match fd.waypoints with
  | some ws => ((ws.filter (fun p => !(env.isWithinKosovo p))).isEmpty)
  | none => true

/-- The operation-area border entry. -/
def areaChecks (env : Env) (fd : FlightData) : List Check :=
  match fd.operationArea with
  | some (Area.circle c _) | some (Area.rect c _) =>
      if !(env.isWithinKosovo c) then
        [⟨CheckName.area_border_check, false, Severity.error, none⟩]
      else [⟨CheckName.area_border_check, true, Severity.info, none⟩]
  | none => []

/-- Whether the operation-area center passes the border test. -/
def areaOk (env : Env) (fd : FlightData) : Bool :=
  match fd.operationArea with
  | some (Area.circle c _) | some (Area.rect c _) => env.isWithinKosovo c
  | none => true

/-- Whether the altitude is legal: `flightData.maxAltitude >
KCAA_REGULATIONS.maxAltitudeAGL` fails the check (an absent field
compares false). -/
def altitudeLegal (fd : FlightData) : Bool :=
  match fd.maxAltitude with
  | some m => !(decide (m > maxAltitudeAGL))
  | none => true

/-- The altitude-check entry. -/
def altitudeChecks (fd : FlightData) : List Check :=
  if altitudeLegal fd then [⟨CheckName.altitude_check, true, Severity.info, none⟩]
  else [⟨CheckName.altitude_check, false, Severity.error, none⟩]

/-- The points fed to the zone classifier:
`flightData.waypoints || (flightData.operationArea?.center ? [center] : [])`
(a present-but-empty waypoint array is truthy and yields no points). -/
def zonePoints (fd : FlightData) : List Point :=
  match fd.waypoints with
  | some ws => ws
  | none =>
      match fd.operationArea with
      | some (Area.circle c _) | some (Area.rect c _) => [c]
      | none => []

/-- All zone violations over the relevant points, each checked at the
representative altitude `flightData.maxAltitude || 100`. -/
def zoneViolations (env : Env) (fd : FlightData) : List ZoneSeverity :=
  (zonePoints fd).flatMap (fun p => env.checkRestrictedZone p (altOf fd.maxAltitude))

/-- The zone-check entries: all errors, then all warnings, or a single
passing entry when there is no violation. -/
def zoneChecks (env : Env) (fd : FlightData) : List Check :=
  let vs := zoneViolations env fd
  if vs.isEmpty then [⟨CheckName.zone_check, true, Severity.info, none⟩]
  else
    ((vs.filter (fun v => decide (v = ZoneSeverity.zerror))).map
        (fun _ => ⟨CheckName.zone_check, false, Severity.error, none⟩)) ++
      ((vs.filter (fun v => decide (v = ZoneSeverity.zwarning))).map
        (fun _ => ⟨CheckName.zone_check, true, Severity.warning, none⟩))

/-- Whether the zone check has no error-severity violation. -/
def zoneOk (env : Env) (fd : FlightData) : Bool :=
  ((zoneViolations env fd).filter (fun v => decide (v = ZoneSeverity.zerror))).isEmpty

/-- Whether the scheduled start is not in the past. -/
def timeOk (now : ℤ) (fd : FlightData) : Bool := !(decide (fd.scheduledStart < now))

/-- The time-check entry. -/
def timeChecks (now : ℤ) (fd : FlightData) : List Check :=
  if timeOk now fd then [⟨CheckName.time_check, true, Severity.info, none⟩]
  else [⟨CheckName.time_check, false, Severity.error, none⟩]

/-- `scheduledStart.getUTCHours() + 1` on a millisecond timestamp. -/
def startHour (fd : FlightData) : ℤ :=
  (fd.scheduledStart.emod 86400000).ediv 3600000 + 1

/-- The daylight-check entry: outside 06:00–20:00 is a warning only. -/
def daylightChecks (fd : FlightData) : List Check :=
  if decide (startHour fd < 6) || decide (startHour fd > 20) then
    [⟨CheckName.daylight_check, false, Severity.warning, none⟩]
  else [⟨CheckName.daylight_check, true, Severity.info, none⟩]

/-- The traffic-conflict entries: one error per conflict record, or a
single passing entry. -/
def trafficChecks (conflicts : List ConflictRecord) : List Check :=
  if conflicts.isEmpty then [⟨CheckName.traffic_conflict, true, Severity.info, none⟩]
  else conflicts.map (fun c => ⟨CheckName.traffic_conflict, false, Severity.error, some c⟩)

/-- `validateFlightRequest(flightData)`: run every check and accumulate
`isValid`, which only the error-severity checks pull down. -/
def validateFlightRequest (env : Env) (now : ℤ) (registry : List Stored)
    (fd : FlightData) : ValidationReport :=
  let conflicts := checkFlightConflicts env.dist env.cosd registry fd none
  { isValid := borderOk env fd && areaOk env fd && altitudeLegal fd &&
      zoneOk env fd && timeOk now fd && conflicts.isEmpty
    checks := borderChecks env fd ++ areaChecks env fd ++ altitudeChecks fd ++
      zoneChecks env fd ++ timeChecks now fd ++ daylightChecks fd ++
      trafficChecks conflicts }

/-- The in-memory branch of `router.post('/')`: validate, then insert
the flight with status `pending` on success and `rejected` otherwise.
Returns the new registry and the stored flight. -/
def submitFlight (env : Env) (now : ℤ) (registry : List Stored) (uid : ℕ)
    (fd : FlightData) (newId : ℕ) : List Stored × Stored :=
  let validation := validateFlightRequest env now registry fd
  let flight : Stored :=
    ⟨newId, uid, fd, if validation.isValid then Status.pending else Status.rejected,
     validation⟩
  (registry ++ [flight], flight)

/-- The in-memory branch of `router.patch('/:id/status')`: set the
requested status unconditionally on the matching flight. -/
def updateStatusOp (fid : ℕ) (s : Status) (registry : List Stored) : List Stored :=
  registry.map (fun f => if f.id = fid then setStatus f s else f)

/-- One flight's view of `router.delete('/:id')`: the owner's matching
flight becomes `cancelled`, everything else is untouched. -/
def cancelOne (uid fid : ℕ) (f : Stored) : Stored :=
  if f.id = fid ∧ f.userId = uid then setStatus f Status.cancelled else f

/-- The in-memory branch of `router.delete('/:id')`. -/
def cancelFlight (uid fid : ℕ) (registry : List Stored) : List Stored :=
  registry.map (cancelOne uid fid)

/-- One flight's status transitions in the simulation tick: an active
flight that walked through all its waypoints (the random movement is
abstracted by the oracle `movedDone`) completes, an approved flight
past its start activates, an active flight past its end completes. -/
def tickFlight (movedDone : ℕ → Bool) (now : ℤ) (f : Stored) : Stored :=
  let f1 :=
    if f.status = Status.active ∧ borderApplicable f.data = true ∧ movedDone f.id = true
    then setStatus f Status.completed else f
  let f2 :=
    if f1.status = Status.approved ∧ f1.data.scheduledStart ≤ now
    then setStatus f1 Status.active else f1
  if f2.status = Status.active ∧ f2.data.scheduledEnd ≤ now
  then setStatus f2 Status.completed else f2

/-- The tick sweep over the registry. -/
def tick (movedDone : ℕ → Bool) (now : ℤ) (registry : List Stored) : List Stored :=
  registry.map (tickFlight movedDone now)

/-- The circle/circle branch of the detailed spatial test: center
distance below the radius sum. -/
def circleHit (dist : Point → Point → ℚ) (f g : FlightData) : Bool :=
  match f.operationArea, g.operationArea with
  | some (Area.circle c1 r1), some (Area.circle c2 r2) => decide (dist c1 c2 < r1 + r2)
  | _, _ => false

/-- Both flights carry operation areas but not both are circles — the
branch the source resolves as an outright conflict once the boxes
overlap. -/
def mixedAreas (f g : FlightData) : Bool :=
  match f.operationArea, g.operationArea with
  | some (Area.circle _ _), some (Area.circle _ _) => false
  | some _, some _ => true
  | _, _ => false

/-- Some sample of the second flight's path falls inside the first
flight's operation area. -/
def areaPathHit (dist : Point → Point → ℚ) (f g : FlightData) : Bool :=
  match f.operationArea with
  | some a => (samplesOf dist g).any (fun s => isPointInArea dist s a)
  | none => false

/-- `minDistance < c` read off the optional running minimum (`none` is
`Infinity`). -/
def optLt (o : Option ℚ) (c : ℚ) : Bool :=
  match o with
  | some d => decide (d < c)
  | none => false

/-- The 200 m path-proximity branch of the detailed spatial test. -/
def proxBelow (dist : Point → Point → ℚ) (f g : FlightData) : Bool :=
  optLt (minPairDist dist (samplesOf dist f) (samplesOf dist g)) 200

/-- The conflict-freedom invariant: no two distinct stored flights that
both hold a non-terminal status have overlapping time windows,
representative altitudes within 30 m and conflicting geometries under
the code's spatial test. -/
def ConflictFree (dist : Point → Point → ℚ) (cosd : ℚ → ℚ)
    (reg : List Stored) : Prop :=
  ∀ f ∈ reg, ∀ g ∈ reg, f.id ≠ g.id →
    nonTerminal f.status = true → nonTerminal g.status = true →
    ¬(f.data.scheduledStart < g.data.scheduledEnd ∧
      g.data.scheduledStart < f.data.scheduledEnd ∧
      altitudeOverlap f.data.maxAltitude g.data.maxAltitude = true ∧
      (checkSpatialConflict dist cosd f.data g.data).hasConflict = true)

/-- The registries reachable from the empty registry by a sequence of
`SubmitFlight` calls (each with its own clock value and a fresh id,
mirroring the uniqueness of the in-memory map's keys). -/
inductive Reachable (env : Env) : List Stored → Prop where
  | nil : Reachable env []
  | submit (reg : List Stored) (now : ℤ) (uid : ℕ) (fd : FlightData) (newId : ℕ)
      (h : Reachable env reg) (hfresh : ∀ f ∈ reg, f.id ≠ newId) :
      Reachable env (submitFlight env now reg uid fd newId).1

/-- The axis-aligned fallback of `isPointInKosovo`, used when no border
polygon is loaded. -/
def insideBBoxFallback (p : Point) : Bool :=
  decide ((41.85 : ℚ) ≤ p.lat) && decide (p.lat ≤ (43.27 : ℚ)) &&
  decide ((19.91 : ℚ) ≤ p.lng) && decide (p.lng ≤ (21.80 : ℚ))

/-- The edge-crossing test of the ray-casting loop for the edge from
`e.2` (the previous vertex `j`) to `e.1` (the current vertex `i`):
`((yi > lat) !== (yj > lat)) && (lng < (xj - xi) * (lat - yi) / (yj - yi) + xi)`. -/
def rayCond (p : Point) (e : Point × Point) : Bool :=
  (decide (e.1.lat > p.lat) != decide (e.2.lat > p.lat)) &&
  decide (p.lng < (e.2.lng - e.1.lng) * (p.lat - e.1.lat) / (e.2.lat - e.1.lat) + e.1.lng)

/-- The (current, previous) vertex pairs visited by
`for (let i = 0, j = n - 1; i < n; j = i++)`. -/
def edgePairs (l : List Point) : List (Point × Point) :=
  l.zip (l.rotate (l.length - 1))

/-- The toggle accumulation of the ray-casting loop. -/
def rayCast (coords : List Point) (p : Point) : Bool :=
  (edgePairs coords).foldl (fun acc e => if rayCond p e then !acc else acc) false

/-- `isPointInKosovo(lat, lng)`: bounding-box fallback when the border
ring is missing or empty, otherwise ray casting over the ring. -/
def isPointInKosovo (coords : List Point) (p : Point) : Bool :=
  if coords.isEmpty then insideBBoxFallback p else rayCast coords p

/-- The interpolated sample of `doesTrajectoryCrossOutside` at step `i`
of 20. -/
def trajSample (p1 p2 : Point) (i : ℕ) : Point :=
  let t : ℚ := (i : ℚ) / 20
  ⟨p1.lat + t * (p2.lat - p1.lat), p1.lng + t * (p2.lng - p1.lng)⟩

/-- `doesTrajectoryCrossOutside(lat1, lng1, lat2, lng2)`: walk the 19
interior interpolation steps `i = 1 .. 19` and return the first sample
outside the border, or `none`. -/
def doesTrajectoryCrossOutside (coords : List Point) (p1 p2 : Point) : Option Point :=
  (List.range' 1 19).findSome? (fun i =>
    if isPointInKosovo coords (trajSample p1 p2 i) then none
    else some (trajSample p1 p2 i))

/-- An airport definition: position and no-fly radius (display fields
omitted). -/
structure Airport where
  position : Point
  restrictedRadius : ℚ
deriving DecidableEq, Repr

/-- A restricted-zone definition: position, radius and altitude cap
(`maxAltitude === 0` means full no-fly). -/
structure Zone where
  position : Point
  radius : ℚ
  maxAltitude : ℚ
deriving DecidableEq, Repr

/-- The classification returned by `isPointInRestrictedArea`:
a no-fly airport hit, a no-fly zone hit, an altitude-capped caution
carrying the zone (and hence its cap), or no restriction. -/
inductive AreaVerdict where
  | restrictedAirport (a : Airport)
  | noFlyZone (z : Zone)
  | cautionZone (z : Zone)
  | clear
deriving DecidableEq, Repr

/-- The airport loop of `isPointInRestrictedArea`: return on the first
airport whose no-fly radius contains the point. -/
def checkAirportsLoop (dist : Point → Point → ℚ) (p : Point) :
    List Airport → Option AreaVerdict
  | [] => none
  | a :: rest =>
      if dist p a.position ≤ a.restrictedRadius then some (AreaVerdict.restrictedAirport a)
      else checkAirportsLoop dist p rest

/-- The zone loop of `isPointInRestrictedArea`: return on the first zone
whose radius contains the point, as a no-fly hit when its altitude cap
is zero and as a caution otherwise. -/
def checkZonesLoop (dist : Point → Point → ℚ) (p : Point) :
    List Zone → Option AreaVerdict
  | [] => none
  | z :: rest =>
      if dist p z.position ≤ z.radius then
        some (if z.maxAltitude = 0 then AreaVerdict.noFlyZone z else AreaVerdict.cautionZone z)
      else checkZonesLoop dist p rest

/-- `isPointInRestrictedArea(lat, lng)`: airports first, then restricted
zones, first match wins, otherwise unrestricted. -/
def isPointInRestrictedArea (dist : Point → Point → ℚ) (airports : List Airport)
    (zones : List Zone) (p : Point) : AreaVerdict :=
  match checkAirportsLoop dist p airports with
  | some r => r
  | none =>
      match checkZonesLoop dist p zones with
      | some r => r
      | none => AreaVerdict.clear

/-! ## Concrete scenario data used by the claim witnesses -/

/-- A rejected stored flight used in the C8 scenarios. -/
def rejectedFlight : Stored :=
  ⟨0, 0, ⟨none, none, none, 0, 0⟩, Status.rejected, ⟨false, []⟩⟩

/-- A stored pending flight at altitude 140 used in the C10 witness. -/
def flight140 : Stored :=
  ⟨0, 0, ⟨some [⟨0, 0⟩], none, some 140, 0, 100⟩, Status.pending, ⟨true, []⟩⟩

/-- Flight A's waypoint, (42.60, 20.90). -/
def wpA : Point := ⟨42.60, 20.90⟩

/-- Flight B's waypoint, 150 m from A's (+0.00135° latitude). -/
def wpB : Point := ⟨42.60135, 20.90⟩

/-- Flight A: single waypoint, 100 m, window 10:00–10:30 (ms of day),
admitted as pending. -/
def flightA : Stored :=
  ⟨0, 0, ⟨some [wpA], none, some 100, 36000000, 37800000⟩, Status.pending, ⟨true, []⟩⟩

/-- Flight B's request at a given altitude, window 10:15–10:45. -/
def requestB (alt : ℚ) : FlightData :=
  ⟨some [wpB], none, some alt, 36900000, 38700000⟩

/-- The concrete configuration of the C2 scenario: everything inside
the border, no restricted zones, a constant 150 m distance. -/
def envC2 : Env := ⟨fun _ => true, fun _ _ => [], fun _ _ => 150, fun _ => 1⟩

/-- The environment of the C1 witness. -/
def envC1 : Env := ⟨fun _ => true, fun _ _ => [], fun _ _ => 0, fun _ => 1⟩

/-! ## Helper lemmas -/

theorem bool_eq_of_iff {a b : Bool} (h : a = true ↔ b = true) : a = b := by
  cases a <;> cases b <;> simp_all

theorem anyConstMap {α : Type} (l : List α) (c : Check) (p : Check → Bool) :
    (l.map (fun _ => c)).any p = (!l.isEmpty && p c) := by
  induction l with
  | nil => simp
  | cons a as ih => cases h : p c <;> simp [h]

theorem nonTerminal_eq (s : Status) : nonTerminal s = !(isTerminal s) := by
  cases s <;> rfl

theorem nonTerminal_iff (s : Status) :
    (!(isTerminal s)) = true ↔
      (s = Status.pending ∨ s = Status.approved ∨ s = Status.active) := by
  cases s <;> simp [isTerminal]

theorem terminal_not_candidate {f : Stored} (h : isTerminal f.status = true)
    (reg : List Stored) (s e : ℤ) (excl : Option ℕ) :
    f ∉ conflictCandidates reg s e excl := by
  intro hmem
  have := (List.mem_filter.mp hmem).2
  rw [h] at this
  simp at this

/-! ## C4: the conflict-candidate filter -/

/-- Claim C4: the conflict check considers exactly the stored flights
whose status is non-terminal (pending, approved or active) and whose
time window meets the candidate's under the strict half-open test
`newStart < otherEnd && newEnd > otherStart`; windows that merely touch
at an endpoint never qualify. -/
theorem C4_candidate_filter (reg : List Stored) (s e : ℤ) (f : Stored) :
    (f ∈ conflictCandidates reg s e none ↔
      f ∈ reg ∧
        (f.status = Status.pending ∨ f.status = Status.approved ∨
          f.status = Status.active) ∧
        s < f.data.scheduledEnd ∧ f.data.scheduledStart < e)
    ∧ f ∉ conflictCandidates reg s f.data.scheduledStart none
    ∧ f ∉ conflictCandidates reg f.data.scheduledEnd e none := by
  refine ⟨?_, ?_, ?_⟩
  · rw [conflictCandidates, List.mem_filter]
    simp only [Bool.and_eq_true, decide_eq_true_eq, nonTerminal_iff]
    tauto
  · intro hmem
    have := (List.mem_filter.mp hmem).2
    simp only [Bool.and_eq_true, decide_eq_true_eq] at this
    exact lt_irrefl _ this.2
  · intro hmem
    have := (List.mem_filter.mp hmem).2
    simp only [Bool.and_eq_true, decide_eq_true_eq] at this
    exact lt_irrefl _ this.1.2

/-! ## C5: the path sampler -/

/-- Claim C5 (amended): between two consecutive waypoints the sampler
emits both endpoints and exactly `floor(segmentLength / spacing)`
(not `ceil`) interior points, linearly interpolated at the fractions
`(j+1)/(n+1)`. -/
theorem C5_sampler_interior_count (dist : Point → Point → ℚ) (p1 p2 : Point)
    (rest : List Point) :
    generatePathSamples dist (p1 :: p2 :: rest) 50 =
      p1 :: (sampleSegment dist p1 p2 50 ++
        p2 :: generatePathSamplesGo dist 50 p2 rest)
    ∧ (sampleSegment dist p1 p2 50).length = (⌊dist p1 p2 / 50⌋).toNat
    ∧ ∀ j : ℕ,
        (sampleSegment dist p1 p2 50)[j]? =
          if j < (⌊dist p1 p2 / 50⌋).toNat then
            some ⟨p1.lat + (((j : ℚ) + 1) / (((⌊dist p1 p2 / 50⌋).toNat : ℚ) + 1)) *
                    (p2.lat - p1.lat),
                  p1.lng + (((j : ℚ) + 1) / (((⌊dist p1 p2 / 50⌋).toNat : ℚ) + 1)) *
                    (p2.lng - p1.lng)⟩
          else none := by
  refine ⟨rfl, by simp only [sampleSegment, List.length_map, List.length_range], ?_⟩
  intro j
  by_cases h : j < (⌊dist p1 p2 / 50⌋).toNat
  · simp only [sampleSegment, List.getElem?_map, List.getElem?_range h, h, if_true,
      Option.map_some']
  · have hlen : (sampleSegment dist p1 p2 50).length ≤ j := by
      simp only [sampleSegment, List.length_map, List.length_range]
      omega
    rw [List.getElem?_eq_none hlen, if_neg h]

/-- Claim C5, counterexample to the stated `ceil` count: a segment of
length 120 m at the default 50 m spacing yields 2 interior points
(4 samples in all), not `ceil(120/50) = 3`. -/
theorem C5_counterexample :
    ¬ ((generatePathSamples (fun _ _ => (120 : ℚ)) [⟨0, 0⟩, ⟨0, 1⟩] 50).length =
        2 + (⌈(120 : ℚ) / 50⌉).toNat) := by
  have hn : (⌊(120 : ℚ) / 50⌋).toNat = 2 := by
    rw [show (⌊(120 : ℚ) / 50⌋) = 2 by norm_num]
    decide
  have h1 : (generatePathSamples (fun _ _ => (120 : ℚ)) [⟨0, 0⟩, ⟨0, 1⟩] 50).length = 4 := by
    simp [generatePathSamples, generatePathSamplesGo, sampleSegment, hn]
  have h2 : (⌈(120 : ℚ) / 50⌉) = 3 := by
    rw [show ((120 : ℚ) / 50) = 12 / 5 by norm_num, Int.ceil_eq_iff]
    norm_num
  rw [h1, h2]
  decide

/-! ## C6: restricted-area classification -/

theorem checkAirportsLoop_eq_find? (dist : Point → Point → ℚ) (p : Point)
    (l : List Airport) :
    checkAirportsLoop dist p l =
      (l.find? (fun a => decide (dist p a.position ≤ a.restrictedRadius))).map
        AreaVerdict.restrictedAirport := by
  induction l with
  | nil => rfl
  | cons a rest ih =>
      by_cases h : dist p a.position ≤ a.restrictedRadius
      · simp [checkAirportsLoop, h, List.find?_cons_of_pos]
      · rw [checkAirportsLoop, if_neg h, ih,
          List.find?_cons_of_neg _ (by simpa using h)]

theorem checkZonesLoop_eq_find? (dist : Point → Point → ℚ) (p : Point)
    (l : List Zone) :
    checkZonesLoop dist p l =
      (l.find? (fun z => decide (dist p z.position ≤ z.radius))).map
        (fun z => if z.maxAltitude = 0 then AreaVerdict.noFlyZone z
                  else AreaVerdict.cautionZone z) := by
  induction l with
  | nil => rfl
  | cons z rest ih =>
      by_cases h : dist p z.position ≤ z.radius
      · simp [checkZonesLoop, h, List.find?_cons_of_pos]
      · rw [checkZonesLoop, if_neg h, ih,
          List.find?_cons_of_neg _ (by simpa using h)]

/-- Claim C6: point classification is first-match, airports before
zones in list order; an in-radius zone is a no-fly hit exactly when its
altitude cap is zero and a caution (carrying the zone and its cap)
otherwise; with no matching airport or zone the point is unrestricted. -/
theorem C6_first_match_classification (dist : Point → Point → ℚ)
    (airports : List Airport) (zones : List Zone) (p : Point) :
    isPointInRestrictedArea dist airports zones p =
      match airports.find? (fun a => decide (dist p a.position ≤ a.restrictedRadius)) with
      | some a => AreaVerdict.restrictedAirport a
      | none =>
          match zones.find? (fun z => decide (dist p z.position ≤ z.radius)) with
          | some z =>
              if z.maxAltitude = 0 then AreaVerdict.noFlyZone z
              else AreaVerdict.cautionZone z
          | none => AreaVerdict.clear := by
  rw [isPointInRestrictedArea, checkAirportsLoop_eq_find?, checkZonesLoop_eq_find?]
  cases airports.find? (fun a => decide (dist p a.position ≤ a.restrictedRadius)) with
  | some a => rfl
  | none =>
      cases zones.find? (fun z => decide (dist p z.position ≤ z.radius)) with
      | some z => rfl
      | none => rfl

/-! ## C7: trajectory border sampling -/

theorem findSome?_guard_none_iff {α : Type} (g : ℕ → Bool) (h : ℕ → α) :
    ∀ l : List ℕ,
      (l.findSome? (fun i => if g i then none else some (h i)) = none ↔
        ∀ i ∈ l, g i = true) := by
  intro l
  induction l with
  | nil => simp
  | cons a rest ih =>
      cases hga : g a with
      | true => simp [List.findSome?_cons, hga, ih]
      | false => simp [List.findSome?_cons, hga]

theorem findSome?_guard_first {α : Type} (g : ℕ → Bool) (h : ℕ → α) :
    ∀ l : List ℕ, l.Pairwise (· < ·) → ∀ q,
      l.findSome? (fun i => if g i then none else some (h i)) = some q →
      ∃ i ∈ l, q = h i ∧ g i = false ∧ ∀ k ∈ l, k < i → g k = true := by
  intro l
  induction l with
  | nil => intro _ q hq; simp at hq
  | cons a rest ih =>
      intro hpw q hq
      rw [List.pairwise_cons] at hpw
      cases hga : g a with
      | false =>
          rw [List.findSome?_cons] at hq
          simp only [hga, if_false] at hq
          refine ⟨a, List.mem_cons_self a rest, by simpa using hq.symm, hga, ?_⟩
          intro k hk hka
          rcases List.mem_cons.mp hk with hk | hk
          · omega
          · exact absurd hka (not_lt.mpr (le_of_lt (hpw.1 k hk)))
      | true =>
          rw [List.findSome?_cons] at hq
          simp only [hga, if_true] at hq
          obtain ⟨i, hi, hqi, hgi, hfirst⟩ := ih hpw.2 q hq
          refine ⟨i, List.mem_cons_of_mem a hi, hqi, hgi, ?_⟩
          intro k hk hki
          rcases List.mem_cons.mp hk with hk | hk
          · subst hk; exact hga
          · exact hfirst k hk hki

/-- Claim C7: `crossesBorder` returns `none` exactly when all 19
intermediate interpolation samples (fractions `i/20`, `i = 1 .. 19`)
pass the border test — in particular whenever both endpoints and all
intermediates are inside — and any returned point is the first
interpolated sample failing the border test. -/
theorem C7_trajectory_crossing (coords : List Point) (p1 p2 : Point) :
    (doesTrajectoryCrossOutside coords p1 p2 = none ↔
      ∀ i ∈ List.range' 1 19, isPointInKosovo coords (trajSample p1 p2 i) = true)
    ∧ ∀ q, doesTrajectoryCrossOutside coords p1 p2 = some q →
        ∃ i ∈ List.range' 1 19, q = trajSample p1 p2 i ∧
          isPointInKosovo coords (trajSample p1 p2 i) = false ∧
          ∀ k ∈ List.range' 1 19, k < i →
            isPointInKosovo coords (trajSample p1 p2 k) = true := by
  constructor
  · exact findSome?_guard_none_iff
      (fun i => isPointInKosovo coords (trajSample p1 p2 i)) (trajSample p1 p2) _
  · exact findSome?_guard_first
      (fun i => isPointInKosovo coords (trajSample p1 p2 i)) (trajSample p1 p2) _
      (by decide)

/-- Claim C7 witness: a degenerate concrete segment fully inside the
fallback bounding box never crosses outside. -/
theorem C7_witness :
    doesTrajectoryCrossOutside [] ⟨42, 20⟩ ⟨42, 20⟩ = none :=
  (C7_trajectory_crossing [] ⟨42, 20⟩ ⟨42, 20⟩).1.mpr (by
    intro i hi
    norm_num [trajSample, isPointInKosovo, insideBBoxFallback])

/-! ## C9: ray casting is invariant under ring rotation -/

theorem foldl_toggle_parity {α : Type} (cnd : α → Bool) (l : List α) : ∀ b : Bool,
    l.foldl (fun acc e => if cnd e then !acc else acc) b =
      (b != decide (l.countP cnd % 2 = 1)) := by
  induction l with
  | nil => intro b; simp
  | cons e rest ih =>
      intro b
      rw [List.foldl_cons, List.countP_cons]
      cases hce : cnd e with
      | false => simp [hce, ih b]
      | true =>
          have hd : decide ((rest.countP cnd + 1) % 2 = 1) =
              !decide (rest.countP cnd % 2 = 1) := by
            apply bool_eq_of_iff
            simp only [decide_eq_true_eq, Bool.not_eq_true', decide_eq_false_iff_not]
            omega
          simp only [hce, if_true, ih (!b), hd]
          generalize decide (rest.countP cnd % 2 = 1) = d
          cases b <;> cases d <;> rfl

theorem zip_rotate_one {α β : Type} (a : List α) (b : List β)
    (h : a.length = b.length) :
    (a.rotate 1).zip (b.rotate 1) = (a.zip b).rotate 1 := by
  cases a with
  | nil =>
      cases b with
      | nil => simp
      | cons y ys => simp at h
  | cons x xs =>
      cases b with
      | nil => simp at h
      | cons y ys =>
          have hlen : xs.length = ys.length := by simpa using h
          have r1 : (x :: xs).rotate 1 = xs ++ [x] := by
            rw [show (1 : ℕ) = 0 + 1 from rfl, List.rotate_cons_succ, List.rotate_zero]
          have r2 : (y :: ys).rotate 1 = ys ++ [y] := by
            rw [show (1 : ℕ) = 0 + 1 from rfl, List.rotate_cons_succ, List.rotate_zero]
          have r3 : ((x, y) :: xs.zip ys).rotate 1 = xs.zip ys ++ [(x, y)] := by
            rw [show (1 : ℕ) = 0 + 1 from rfl, List.rotate_cons_succ, List.rotate_zero]
          rw [r1, r2, show ((x :: xs).zip (y :: ys)) = (x, y) :: xs.zip ys from rfl, r3,
            List.zip_append hlen]
          rfl

theorem zip_rotate {α β : Type} (a : List α) (b : List β)
    (h : a.length = b.length) :
    ∀ k : ℕ, (a.rotate k).zip (b.rotate k) = (a.zip b).rotate k := by
  intro k
  induction k with
  | zero => simp [List.rotate_zero]
  | succ n ih =>
      rw [(List.rotate_rotate a n 1).symm, (List.rotate_rotate b n 1).symm,
        zip_rotate_one _ _ (by simp [h]), ih, List.rotate_rotate]

theorem edgePairs_rotate (l : List Point) (k : ℕ) :
    edgePairs (l.rotate k) = (edgePairs l).rotate k := by
  rw [edgePairs, edgePairs, List.length_rotate, List.rotate_rotate,
    Nat.add_comm k (l.length - 1), ← List.rotate_rotate]
  exact zip_rotate l (l.rotate (l.length - 1)) (by simp) k

theorem rayCast_rotate (coords : List Point) (k : ℕ) (p : Point) :
    rayCast (coords.rotate k) p = rayCast coords p := by
  rw [rayCast, rayCast, foldl_toggle_parity, foldl_toggle_parity]
  have hperm : List.Perm (edgePairs (coords.rotate k)) (edgePairs coords) := by
    rw [edgePairs_rotate]
    exact List.rotate_perm _ _
  rw [hperm.countP_eq]

theorem isPointInKosovo_rotate (coords : List Point) (k : ℕ) (p : Point) :
    isPointInKosovo (coords.rotate k) p = isPointInKosovo coords p := by
  rw [isPointInKosovo, isPointInKosovo]
  have hemp : (coords.rotate k).isEmpty = coords.isEmpty := by
    cases coords with
    | nil => simp
    | cons a as =>
        cases hr : (a :: as).rotate k with
        | nil =>
            have hL := List.length_rotate (a :: as) k
            rw [hr] at hL
            simp at hL
        | cons b bs => simp
  rw [hemp]
  cases he : coords.isEmpty with
  | true => simp
  | false => simp [rayCast_rotate]

/-- Claim C9: the ray-casting membership test is invariant under cyclic
rotation of the polygon ring, and on the triangle (0,0), (0,10), (10,0)
it accepts (1,1) and rejects (20,20). -/
theorem C9_raycast_rotation_invariance :
    (∀ (coords : List Point) (k : ℕ) (p : Point),
        isPointInKosovo (coords.rotate k) p = isPointInKosovo coords p)
    ∧ isPointInKosovo [⟨0, 0⟩, ⟨0, 10⟩, ⟨10, 0⟩] ⟨1, 1⟩ = true
    ∧ isPointInKosovo [⟨0, 0⟩, ⟨0, 10⟩, ⟨10, 0⟩] ⟨20, 20⟩ = false := by
  refine ⟨isPointInKosovo_rotate, ?_, ?_⟩
  · norm_num [isPointInKosovo, rayCast, edgePairs, rayCond, List.rotate]
  · norm_num [isPointInKosovo, rayCast, edgePairs, rayCond, List.rotate]

/-! ## C8: terminal statuses -/

/-- Claim C8 (amended): the maintenance tick and the cancellation
operation never move a terminal flight (rejected, completed, cancelled)
back to a non-terminal status, and terminal flights never appear among
conflict candidates; the status-update endpoint, however, writes the
requested status unconditionally, so it can revive a terminal flight. -/
theorem C8_terminal_statuses (movedDone : ℕ → Bool) (now : ℤ) (f : Stored)
    (uid fid : ℕ) (reg : List Stored) (s e : ℤ) (excl : Option ℕ)
    (h : isTerminal f.status = true) :
    isTerminal (tickFlight movedDone now f).status = true ∧
    isTerminal (cancelOne uid fid f).status = true ∧
    f ∉ conflictCandidates reg s e excl := by
  refine ⟨?_, ?_, terminal_not_candidate h reg s e excl⟩
  · cases hs : f.status with
    | pending => rw [hs] at h; simp [isTerminal] at h
    | approved => rw [hs] at h; simp [isTerminal] at h
    | active => rw [hs] at h; simp [isTerminal] at h
    | completed => simp [tickFlight, setStatus, hs, isTerminal]
    | cancelled => simp [tickFlight, setStatus, hs, isTerminal]
    | rejected => simp [tickFlight, setStatus, hs, isTerminal]
  · by_cases hc : f.id = fid ∧ f.userId = uid
    · simp [cancelOne, hc, setStatus, isTerminal]
    · simp [cancelOne, hc, h]

/-- Claim C8 witness: the tick and cancellation leave a concrete
rejected flight terminal, and it is not a conflict candidate. -/
theorem C8_witness :
    isTerminal (tickFlight (fun _ => true) 0 rejectedFlight).status = true ∧
    isTerminal (cancelOne 0 0 rejectedFlight).status = true ∧
    rejectedFlight ∉ conflictCandidates [rejectedFlight] 0 0 none :=
  C8_terminal_statuses (fun _ => true) 0 rejectedFlight 0 0 [rejectedFlight] 0 0 none rfl

/-- Claim C8, counterexample to the stated claim: the status-update
route moves a rejected (terminal) flight straight back to `pending`
(non-terminal). -/
theorem C8_counterexample :
    (updateStatusOp 0 Status.pending [rejectedFlight]).map Stored.status =
      [Status.pending] ∧
    isTerminal Status.rejected = true ∧ isTerminal Status.pending = false := by
  refine ⟨?_, rfl, rfl⟩
  simp [updateStatusOp, rejectedFlight, setStatus]

/-! ## C10: the `|| 100` altitude default -/

/-- Claim C10 (amended): a flight without `maxAltitude` is treated as
flying at 100 m, two such flights always overlap vertically, and a
flight without `maxAltitude` never conflicts with flights whose
(nonzero) `maxAltitude` differs from 100 by at least 30 m.  (The
nonzero proviso is forced by the JavaScript `|| 100` default, which
also replaces an explicit altitude of 0.) -/
theorem C10_vertical_default (dist : Point → Point → ℚ) (cosd : ℚ → ℚ)
    (reg : List Stored) (nf : FlightData) (excl : Option ℕ)
    (h1 : nf.maxAltitude = none)
    (h2 : ∀ f ∈ reg, ∃ a : ℚ, f.data.maxAltitude = some a ∧ a ≠ 0 ∧ 30 ≤ |a - 100|) :
    altOf none = 100 ∧ altitudeOverlap none none = true ∧
    checkFlightConflicts dist cosd reg nf excl = [] := by
  refine ⟨rfl, by norm_num [altitudeOverlap, altOf], ?_⟩
  rw [checkFlightConflicts, List.filterMap_eq_nil_iff]
  intro f hf
  obtain ⟨a, ha, ha0, hsep⟩ := h2 f (List.mem_of_mem_filter hf)
  have hov : altitudeOverlap nf.maxAltitude f.data.maxAltitude = false := by
    rw [h1, ha, altitudeOverlap]
    simp only [altOf, if_neg ha0, decide_eq_false_iff_not, not_lt]
    calc (30 : ℚ) ≤ |a - 100| := hsep
      _ = |100 - a| := abs_sub_comm a 100
  simp [hov]

/-- Claim C10 witness: a concrete candidate without `maxAltitude` never
conflicts with a stored flight at 140 m. -/
theorem C10_witness :
    altOf none = 100 ∧ altitudeOverlap none none = true ∧
    checkFlightConflicts (fun _ _ => 0) (fun _ => 1) [flight140]
      ⟨some [⟨0, 0⟩], none, none, 0, 100⟩ none = [] :=
  C10_vertical_default (fun _ _ => 0) (fun _ => 1) [flight140]
    ⟨some [⟨0, 0⟩], none, none, 0, 100⟩ none rfl (by
      intro f hf
      rw [List.mem_singleton.mp hf]
      exact ⟨140, rfl, by norm_num, by norm_num⟩)

/-- Claim C10, counterexample to the stated claim: a stored flight with
an explicit `maxAltitude` of 0 — which differs from 100 by 100 ≥ 30 m —
still conflicts with a candidate that omits `maxAltitude`, because the
falsy `0 || 100` default replaces it by 100. -/
theorem C10_counterexample :
    checkFlightConflicts (fun _ _ => 0) (fun _ => 1)
        [⟨0, 0, ⟨some [⟨0, 0⟩], none, some 0, 0, 100⟩, Status.pending, ⟨true, []⟩⟩]
        ⟨some [⟨0, 0⟩], none, none, 0, 100⟩ none ≠ [] ∧
      (30 : ℚ) ≤ |(0 : ℚ) - 100| := by
  constructor
  · norm_num [checkFlightConflicts, conflictCandidates, isTerminal, altitudeOverlap,
      altOf, checkSpatialConflict, getFlightBounds, foldMax, foldMin, boundsOverlap,
      samplesOf, generatePathSamples, generatePathSamplesGo, sampleSegment,
      minPairDist, minPairRow, minPairStep, jsRound, List.filter_cons,
      List.filterMap_cons]
  · norm_num

/-! ## C3: every check runs, `isValid` is the error conjunction -/

theorem anyErr_border (env : Env) (fd : FlightData) :
    (borderChecks env fd).any (fun c => decide (c.severity = Severity.error)) =
      !(borderOk env fd) := by
  cases hw : fd.waypoints with
  | none => simp [borderChecks, borderOk, hw]
  | some ws =>
      cases ws with
      | nil => simp [borderChecks, borderOk, hw]
      | cons w ws' =>
          by_cases hf : ((w :: ws').filter (fun p => !(env.isWithinKosovo p))).isEmpty
          · simp [borderChecks, borderOk, hw, hf]
          · simp only [borderChecks, borderOk, hw, if_neg hf, anyConstMap]
            simp

theorem border_hasName_of_applicable (env : Env) (fd : FlightData)
    (h : borderApplicable fd = true) :
    (borderChecks env fd).any (fun c => decide (c.name = CheckName.border_check)) = true := by
  cases hw : fd.waypoints with
  | none => rw [borderApplicable, hw] at h; simp at h
  | some ws =>
      cases ws with
      | nil => rw [borderApplicable, hw] at h; simp at h
      | cons w ws' =>
          by_cases hf : ((w :: ws').filter (fun p => !(env.isWithinKosovo p))).isEmpty
          · simp [borderChecks, hw, hf]
          · simp only [borderChecks, hw, if_neg hf, anyConstMap]
            simp [hf]

theorem anyErr_area (env : Env) (fd : FlightData) :
    (areaChecks env fd).any (fun c => decide (c.severity = Severity.error)) =
      !(areaOk env fd) := by
  cases ho : fd.operationArea with
  | none => simp [areaChecks, areaOk, ho]
  | some a =>
      cases a with
      | circle c r =>
          by_cases hc : env.isWithinKosovo c <;> simp [areaChecks, areaOk, ho, hc]
      | rect c b =>
          by_cases hc : env.isWithinKosovo c <;> simp [areaChecks, areaOk, ho, hc]

theorem area_hasName_of_some (env : Env) (fd : FlightData)
    (h : fd.operationArea.isSome = true) :
    (areaChecks env fd).any (fun c => decide (c.name = CheckName.area_border_check)) =
      true := by
  cases ho : fd.operationArea with
  | none => rw [ho] at h; simp at h
  | some a =>
      cases a with
      | circle c r =>
          by_cases hc : env.isWithinKosovo c <;> simp [areaChecks, ho, hc]
      | rect c b =>
          by_cases hc : env.isWithinKosovo c <;> simp [areaChecks, ho, hc]

theorem anyErr_altitude (fd : FlightData) :
    (altitudeChecks fd).any (fun c => decide (c.severity = Severity.error)) =
      !(altitudeLegal fd) := by
  by_cases h : altitudeLegal fd <;> simp [altitudeChecks, h]

theorem altitude_hasName (fd : FlightData) :
    (altitudeChecks fd).any (fun c => decide (c.name = CheckName.altitude_check)) =
      true := by
  by_cases h : altitudeLegal fd <;> simp [altitudeChecks, h]

theorem anyErr_zone (env : Env) (fd : FlightData) :
    (zoneChecks env fd).any (fun c => decide (c.severity = Severity.error)) =
      !(zoneOk env fd) := by
  by_cases hv : (zoneViolations env fd).isEmpty
  · have hnil : zoneViolations env fd = [] := List.isEmpty_iff.mp hv
    simp [zoneChecks, zoneOk, hv, hnil]
  · simp only [zoneChecks, zoneOk, if_neg hv, List.any_append, anyConstMap]
    simp

theorem zone_hasName (env : Env) (fd : FlightData) :
    (zoneChecks env fd).any (fun c => decide (c.name = CheckName.zone_check)) = true := by
  cases hvs : zoneViolations env fd with
  | nil => simp [zoneChecks, hvs]
  | cons v rest =>
      cases v with
      | zerror =>
          simp [zoneChecks, hvs, List.any_append, anyConstMap, List.filter_cons]
      | zwarning =>
          simp [zoneChecks, hvs, List.any_append, anyConstMap, List.filter_cons]

theorem anyErr_time (now : ℤ) (fd : FlightData) :
    (timeChecks now fd).any (fun c => decide (c.severity = Severity.error)) =
      !(timeOk now fd) := by
  by_cases h : timeOk now fd <;> simp [timeChecks, h]

theorem time_hasName (now : ℤ) (fd : FlightData) :
    (timeChecks now fd).any (fun c => decide (c.name = CheckName.time_check)) = true := by
  by_cases h : timeOk now fd <;> simp [timeChecks, h]

theorem anyErr_daylight (fd : FlightData) :
    (daylightChecks fd).any (fun c => decide (c.severity = Severity.error)) = false := by
  by_cases h : (decide (startHour fd < 6) || decide (startHour fd > 20)) = true <;>
    simp [daylightChecks, h]

theorem daylight_hasName (fd : FlightData) :
    (daylightChecks fd).any (fun c => decide (c.name = CheckName.daylight_check)) =
      true := by
  by_cases h : (decide (startHour fd < 6) || decide (startHour fd > 20)) = true <;>
    simp [daylightChecks, h]

theorem anyErr_traffic (conflicts : List ConflictRecord) :
    (trafficChecks conflicts).any (fun c => decide (c.severity = Severity.error)) =
      !(conflicts.isEmpty) := by
  by_cases h : conflicts.isEmpty
  · simp [trafficChecks, h]
  · cases conflicts with
    | nil => simp at h
    | cons c cs => simp [trafficChecks]

theorem traffic_hasName (conflicts : List ConflictRecord) :
    (trafficChecks conflicts).any (fun c => decide (c.name = CheckName.traffic_conflict)) =
      true := by
  by_cases h : conflicts.isEmpty
  · simp [trafficChecks, h]
  · cases conflicts with
    | nil => simp at h
    | cons c cs => simp [trafficChecks]

/-- Claim C3: the validator runs all checks unconditionally, so the
report contains an entry for every applicable check, and `isValid` is
exactly the absence of an error-severity check — warnings and infos
never block. -/
theorem C3_all_checks_reported (env : Env) (now : ℤ) (reg : List Stored)
    (fd : FlightData) :
    ((validateFlightRequest env now reg fd).isValid =
      !((validateFlightRequest env now reg fd).checks.any
          (fun c => decide (c.severity = Severity.error))))
    ∧ (!(borderApplicable fd) ||
        (validateFlightRequest env now reg fd).checks.any
          (fun c => decide (c.name = CheckName.border_check))) = true
    ∧ (!(fd.operationArea.isSome) ||
        (validateFlightRequest env now reg fd).checks.any
          (fun c => decide (c.name = CheckName.area_border_check))) = true
    ∧ (validateFlightRequest env now reg fd).checks.any
        (fun c => decide (c.name = CheckName.altitude_check)) = true
    ∧ (validateFlightRequest env now reg fd).checks.any
        (fun c => decide (c.name = CheckName.zone_check)) = true
    ∧ (validateFlightRequest env now reg fd).checks.any
        (fun c => decide (c.name = CheckName.time_check)) = true
    ∧ (validateFlightRequest env now reg fd).checks.any
        (fun c => decide (c.name = CheckName.daylight_check)) = true
    ∧ (validateFlightRequest env now reg fd).checks.any
        (fun c => decide (c.name = CheckName.traffic_conflict)) = true := by
  refine ⟨?_, ?_, ?_, ?_, ?_, ?_, ?_, ?_⟩
  · simp only [validateFlightRequest, List.any_append, anyErr_border, anyErr_area,
      anyErr_altitude, anyErr_zone, anyErr_time, anyErr_daylight, anyErr_traffic]
    generalize borderOk env fd = a
    generalize areaOk env fd = b
    generalize altitudeLegal fd = c
    generalize zoneOk env fd = d
    generalize timeOk now fd = e
    generalize (checkFlightConflicts env.dist env.cosd reg fd none).isEmpty = g
    cases a <;> cases b <;> cases c <;> cases d <;> cases e <;> cases g <;> rfl
  · cases hba : borderApplicable fd
    · simp
    · simp [validateFlightRequest, List.any_append,
        border_hasName_of_applicable env fd hba]
  · cases hos : fd.operationArea.isSome
    · simp
    · simp [validateFlightRequest, List.any_append, area_hasName_of_some env fd hos]
  · simp [validateFlightRequest, List.any_append, altitude_hasName]
  · simp [validateFlightRequest, List.any_append, zone_hasName]
  · simp [validateFlightRequest, List.any_append, time_hasName]
  · simp [validateFlightRequest, List.any_append, daylight_hasName]
  · simp [validateFlightRequest, List.any_append, traffic_hasName]

/-! ## C2: the two-flight admission scenario -/

/-- Claim C2 (amended): with A admitted, B at 110 m (Δ = 10 < 30) draws
a `traffic_conflict` error, fails validation, is stored `rejected` and
never becomes a conflict candidate; B at 70 m (Δ = 30 ≥ 30 — the
stated 140 m would trip the 120 m regulatory ceiling) draws no
conflict and is admitted `pending`. -/
theorem C2_two_flight_admission (env : Env) (now : ℤ)
    (h1 : env.dist wpB wpA = 150)
    (h2 : env.isWithinKosovo wpB = true)
    (h3 : env.checkRestrictedZone wpB 70 = [])
    (h4 : now ≤ 36900000) :
    ((validateFlightRequest env now [flightA] (requestB 110)).isValid = false
      ∧ (validateFlightRequest env now [flightA] (requestB 110)).checks.any
          (fun c => decide (c.name = CheckName.traffic_conflict ∧
            c.severity = Severity.error)) = true
      ∧ (submitFlight env now [flightA] 1 (requestB 110) 1).2.status = Status.rejected
      ∧ ∀ (reg : List Stored) (s e : ℤ) (excl : Option ℕ),
          (submitFlight env now [flightA] 1 (requestB 110) 1).2 ∉
            conflictCandidates reg s e excl)
    ∧ (checkFlightConflicts env.dist env.cosd [flightA] (requestB 70) none = []
      ∧ (submitFlight env now [flightA] 1 (requestB 70) 1).2.status = Status.pending) := by
  have hblat : wpB.lat = 42.60135 := rfl
  have hblng : wpB.lng = 20.90 := rfl
  have halat : wpA.lat = 42.60 := rfl
  have halng : wpA.lng = 20.90 := rfl
  have hsc : checkSpatialConflict env.dist env.cosd (requestB 110) flightA.data =
      ⟨true, some 150, some ConflictType.path_proximity⟩ := by
    norm_num [checkSpatialConflict, getFlightBounds, requestB, flightA,
      foldMax, foldMin, boundsOverlap, samplesOf, generatePathSamples,
      generatePathSamplesGo, sampleSegment, minPairDist, minPairRow, minPairStep,
      isPointInArea, hblat, hblng, halat, halng, h1]
  have hconf : checkFlightConflicts env.dist env.cosd [flightA] (requestB 110) none =
      [⟨0, some ConflictType.path_proximity, 150, 36000000, 37800000⟩] := by
    norm_num [checkFlightConflicts, conflictCandidates, isTerminal,
      altitudeOverlap, altOf, hsc, jsRound, List.filter_cons, List.filterMap_cons,
      show flightA.status = Status.pending from rfl,
      show flightA.id = 0 from rfl,
      show flightA.data.scheduledStart = 36000000 from rfl,
      show flightA.data.scheduledEnd = 37800000 from rfl,
      show flightA.data.maxAltitude = some 100 from rfl,
      show (requestB 110).scheduledStart = 36900000 from rfl,
      show (requestB 110).scheduledEnd = 38700000 from rfl,
      show (requestB 110).maxAltitude = some 110 from rfl]
  have hval : (validateFlightRequest env now [flightA] (requestB 110)).isValid = false := by
    simp [validateFlightRequest, hconf]
  have hstat : (submitFlight env now [flightA] 1 (requestB 110) 1).2.status =
      Status.rejected := by
    simp [submitFlight, hval]
  have hconf70 : checkFlightConflicts env.dist env.cosd [flightA] (requestB 70) none =
      [] := by
    norm_num [checkFlightConflicts, conflictCandidates, isTerminal,
      altitudeOverlap, altOf, List.filter_cons, List.filterMap_cons,
      show flightA.status = Status.pending from rfl,
      show flightA.data.scheduledStart = 36000000 from rfl,
      show flightA.data.scheduledEnd = 37800000 from rfl,
      show flightA.data.maxAltitude = some 100 from rfl,
      show (requestB 70).scheduledStart = 36900000 from rfl,
      show (requestB 70).scheduledEnd = 38700000 from rfl,
      show (requestB 70).maxAltitude = some 70 from rfl]
  have hnotpast : ¬ ((36900000 : ℤ) < now) := not_lt.mpr h4
  have hval70 : (validateFlightRequest env now [flightA] (requestB 70)).isValid =
      true := by
    norm_num [validateFlightRequest, hconf70, borderOk, areaOk, altitudeLegal,
      maxAltitudeAGL, zoneOk, zoneViolations, zonePoints, altOf, timeOk,
      h2, h3, hnotpast, List.filter_cons,
      show (requestB 70).waypoints = some [wpB] from rfl,
      show (requestB 70).operationArea = none from rfl,
      show (requestB 70).maxAltitude = some 70 from rfl,
      show (requestB 70).scheduledStart = 36900000 from rfl]
  refine ⟨⟨hval, ?_, hstat, ?_⟩, hconf70, ?_⟩
  · simp [validateFlightRequest, List.any_append, hconf, trafficChecks]
  · intro reg s e excl
    refine terminal_not_candidate ?_ reg s e excl
    rw [hstat]
    rfl
  · simp [submitFlight, hval70]

/-- Claim C2 witness: the scenario at the concrete configuration. -/
theorem C2_witness :
    envC2.dist wpB wpA = 150 ∧ (0 : ℤ) ≤ 36900000 ∧
    (((validateFlightRequest envC2 0 [flightA] (requestB 110)).isValid = false
      ∧ (validateFlightRequest envC2 0 [flightA] (requestB 110)).checks.any
          (fun c => decide (c.name = CheckName.traffic_conflict ∧
            c.severity = Severity.error)) = true
      ∧ (submitFlight envC2 0 [flightA] 1 (requestB 110) 1).2.status = Status.rejected
      ∧ ∀ (reg : List Stored) (s e : ℤ) (excl : Option ℕ),
          (submitFlight envC2 0 [flightA] 1 (requestB 110) 1).2 ∉
            conflictCandidates reg s e excl)
    ∧ (checkFlightConflicts envC2.dist envC2.cosd [flightA] (requestB 70) none = []
      ∧ (submitFlight envC2 0 [flightA] 1 (requestB 70) 1).2.status =
          Status.pending)) :=
  ⟨rfl, by decide, C2_two_flight_admission envC2 0 rfl rfl rfl (by decide)⟩

/-- Claim C2, counterexample to the stated scenario: at 140 m altitude
no conflict is reported, but B is not admitted as pending — the 120 m
regulatory ceiling rejects it. -/
theorem C2_counterexample :
    (submitFlight envC2 0 [flightA] 1 (requestB 140) 1).2.status = Status.rejected ∧
    (validateFlightRequest envC2 0 [flightA] (requestB 140)).checks.any
        (fun c => decide (c.name = CheckName.traffic_conflict ∧
          c.severity = Severity.error)) = false := by
  constructor
  all_goals
    norm_num [submitFlight, validateFlightRequest, borderOk, areaOk, altitudeLegal,
      maxAltitudeAGL, zoneOk, zoneViolations, zonePoints, altOf, timeOk, startHour,
      checkFlightConflicts, conflictCandidates, isTerminal, altitudeOverlap,
      checkSpatialConflict, getFlightBounds, foldMax, foldMin, boundsOverlap,
      samplesOf, generatePathSamples, generatePathSamplesGo, sampleSegment,
      minPairDist, minPairRow, minPairStep, isPointInArea, jsRound, envC2,
      flightA, requestB, wpA, wpB,
      borderChecks, areaChecks, altitudeChecks, zoneChecks, timeChecks,
      daylightChecks, trafficChecks, List.any_append, List.filter_cons,
      List.filterMap_cons]
  decide

/-! ## C1: the conflict-freedom invariant -/

theorem minPairRow_optLt (dist : Point → Point → ℚ) (c : ℚ) (s1 : Point)
    (l2 : List Point) :
    ∀ acc : Option ℚ,
      optLt (minPairRow dist l2 acc s1) c =
        (optLt acc c || l2.any (fun b => decide (dist s1 b < c))) := by
  induction l2 with
  | nil => intro acc; simp [minPairRow]
  | cons b bs ih =>
      intro acc
      rw [minPairRow, List.foldl_cons,
        show List.foldl (minPairStep dist s1) (minPairStep dist s1 acc b) bs =
          minPairRow dist bs (minPairStep dist s1 acc b) s1 from rfl,
        ih (minPairStep dist s1 acc b)]
      have hstep : optLt (minPairStep dist s1 acc b) c =
          (optLt acc c || decide (dist s1 b < c)) := by
        cases acc with
        | none => simp [minPairStep, optLt]
        | some m =>
            by_cases hd : dist s1 b < m
            · apply bool_eq_of_iff
              simp only [minPairStep, if_pos hd, optLt, Bool.or_eq_true,
                decide_eq_true_eq]
              constructor
              · intro h; exact Or.inr h
              · rintro (h | h)
                · exact lt_trans hd h
                · exact h
            · apply bool_eq_of_iff
              simp only [minPairStep, if_neg hd, optLt, Bool.or_eq_true,
                decide_eq_true_eq]
              constructor
              · intro h; exact Or.inl h
              · rintro (h | h)
                · exact h
                · exact lt_of_le_of_lt (not_lt.mp hd) h
      rw [hstep, List.any_cons, Bool.or_assoc]

theorem minPairDist_optLt (dist : Point → Point → ℚ) (c : ℚ) (l1 l2 : List Point) :
    optLt (minPairDist dist l1 l2) c =
      l1.any (fun a => l2.any (fun b => decide (dist a b < c))) := by
  suffices h : ∀ acc : Option ℚ,
      optLt (l1.foldl (minPairRow dist l2) acc) c =
        (optLt acc c ||
          l1.any (fun a => l2.any (fun b => decide (dist a b < c)))) by
    have := h none
    rw [minPairDist]
    simpa [optLt] using this
  induction l1 with
  | nil => intro acc; simp
  | cons a as ih =>
      intro acc
      rw [List.foldl_cons, ih, minPairRow_optLt, List.any_cons, Bool.or_assoc]

theorem proxBelow_symm (dist : Point → Point → ℚ)
    (hsym : ∀ p q, dist p q = dist q p) (f g : FlightData) :
    proxBelow dist f g = proxBelow dist g f := by
  rw [proxBelow, proxBelow, minPairDist_optLt, minPairDist_optLt]
  apply bool_eq_of_iff
  simp only [List.any_eq_true, decide_eq_true_eq]
  constructor
  · rintro ⟨a, ha, b, hb, h⟩; exact ⟨b, hb, a, ha, by rwa [hsym]⟩
  · rintro ⟨b, hb, a, ha, h⟩; exact ⟨a, ha, b, hb, by rwa [hsym]⟩

theorem boundsOverlap_symm (b1 b2 : Option Bounds) (buf : ℚ) :
    boundsOverlap b1 b2 buf = boundsOverlap b2 b1 buf := by
  rcases b1 with _ | x <;> rcases b2 with _ | y <;> try rfl
  rw [boundsOverlap, boundsOverlap]
  generalize decide (x.east + buf < y.west - buf) = d1
  generalize decide (y.east + buf < x.west - buf) = d2
  generalize decide (x.north + buf < y.south - buf) = d3
  generalize decide (y.north + buf < x.south - buf) = d4
  cases d1 <;> cases d2 <;> cases d3 <;> cases d4 <;> rfl

theorem circleHit_symm (dist : Point → Point → ℚ)
    (hsym : ∀ p q, dist p q = dist q p) (f g : FlightData) :
    circleHit dist f g = circleHit dist g f := by
  rw [circleHit, circleHit]
  rcases f.operationArea with _ | a1 <;> rcases g.operationArea with _ | a2
  · rfl
  · cases a2 <;> rfl
  · cases a1 <;> rfl
  · cases a1 with
    | circle c1 r1 =>
        cases a2 with
        | circle c2 r2 =>
            show decide (dist c1 c2 < r1 + r2) = decide (dist c2 c1 < r2 + r1)
            rw [hsym, add_comm]
        | rect c2 b2 => rfl
    | rect c1 b1 => cases a2 <;> rfl

theorem mixedAreas_symm (f g : FlightData) : mixedAreas f g = mixedAreas g f := by
  rw [mixedAreas, mixedAreas]
  rcases f.operationArea with _ | a1 <;> rcases g.operationArea with _ | a2
  · rfl
  · cases a2 <;> rfl
  · cases a1 <;> rfl
  · cases a1 <;> cases a2 <;> rfl

theorem altitudeOverlap_symm (a b : Option ℚ) :
    altitudeOverlap a b = altitudeOverlap b a := by
  rw [altitudeOverlap, altitudeOverlap, abs_sub_comm]

theorem spatial_hasConflict_char (dist : Point → Point → ℚ) (cosd : ℚ → ℚ)
    (f g : FlightData) :
    (checkSpatialConflict dist cosd f g).hasConflict =
      (boundsOverlap (getFlightBounds cosd f) (getFlightBounds cosd g) (1/200) &&
        (circleHit dist f g || mixedAreas f g || areaPathHit dist f g ||
          areaPathHit dist g f || proxBelow dist f g)) := by
  simp only [checkSpatialConflict]
  cases hb : boundsOverlap (getFlightBounds cosd f) (getFlightBounds cosd g) (1/200) with
  | false => simp
  | true =>
      simp only [Bool.not_true, Bool.false_eq_true, if_false, Bool.true_and]
      rw [circleHit, mixedAreas, areaPathHit, areaPathHit, proxBelow]
      rcases hfo : f.operationArea with _ | a1 <;> rcases hgo : g.operationArea with _ | a2
      · cases hmd : minPairDist dist (samplesOf dist f) (samplesOf dist g) with
        | none => simp [optLt, hmd]
        | some d => by_cases hd : d < 200 <;> simp [optLt, hmd, hd]
      · by_cases hh2 : ((samplesOf dist f).any (fun s => isPointInArea dist s a2)) = true
        · simp [hh2]
        · rw [Bool.not_eq_true] at hh2
          cases hmd : minPairDist dist (samplesOf dist f) (samplesOf dist g) with
          | none => simp [optLt, hmd, hh2]
          | some d => by_cases hd : d < 200 <;> simp [optLt, hmd, hd, hh2]
      · by_cases hh1 : ((samplesOf dist g).any (fun s => isPointInArea dist s a1)) = true
        · simp [hh1]
        · rw [Bool.not_eq_true] at hh1
          cases hmd : minPairDist dist (samplesOf dist f) (samplesOf dist g) with
          | none => simp [optLt, hmd, hh1]
          | some d => by_cases hd : d < 200 <;> simp [optLt, hmd, hd, hh1]
      · cases a1 with
        | circle c1 r1 =>
            cases a2 with
            | circle c2 r2 =>
                by_cases hcc : dist c1 c2 < r1 + r2
                · simp [hcc]
                · simp only [if_neg hcc, decide_eq_false hcc, Bool.false_or]
                  by_cases hh1 : ((samplesOf dist g).any (fun s => isPointInArea dist s
                      (Area.circle c1 r1))) = true
                  · simp [hh1]
                  · rw [Bool.not_eq_true] at hh1
                    by_cases hh2 : ((samplesOf dist f).any
                        (fun s => isPointInArea dist s (Area.circle c2 r2))) = true
                    · simp [hh1, hh2]
                    · rw [Bool.not_eq_true] at hh2
                      cases hmd : minPairDist dist (samplesOf dist f)
                          (samplesOf dist g) with
                      | none => simp [optLt, hmd, hh1, hh2]
                      | some d =>
                          by_cases hd : d < 200 <;>
                            simp [optLt, hmd, hd, hh1, hh2]
            | rect c2 b2 => simp
        | rect c1 b1 =>
            cases a2 with
            | circle c2 r2 => simp
            | rect c2 b2 => simp

theorem spatial_hasConflict_symm (dist : Point → Point → ℚ) (cosd : ℚ → ℚ)
    (hsym : ∀ p q, dist p q = dist q p) (f g : FlightData) :
    (checkSpatialConflict dist cosd f g).hasConflict =
      (checkSpatialConflict dist cosd g f).hasConflict := by
  rw [spatial_hasConflict_char, spatial_hasConflict_char,
    boundsOverlap_symm, circleHit_symm dist hsym, mixedAreas_symm,
    proxBelow_symm dist hsym]
  generalize boundsOverlap (getFlightBounds cosd g) (getFlightBounds cosd f) (1/200) = e0
  generalize circleHit dist g f = e1
  generalize mixedAreas g f = e2
  generalize areaPathHit dist f g = e3
  generalize areaPathHit dist g f = e4
  generalize proxBelow dist g f = e5
  cases e0 <;> cases e1 <;> cases e2 <;> cases e3 <;> cases e4 <;> cases e5 <;> rfl

theorem conflicts_nil_no_spatial (dist : Point → Point → ℚ) (cosd : ℚ → ℚ)
    (reg : List Stored) (fd : FlightData)
    (hnil : checkFlightConflicts dist cosd reg fd none = [])
    (f : Stored) (hf : f ∈ reg)
    (hstat : nonTerminal f.status = true)
    (ht1 : fd.scheduledStart < f.data.scheduledEnd)
    (ht2 : f.data.scheduledStart < fd.scheduledEnd)
    (halt : altitudeOverlap fd.maxAltitude f.data.maxAltitude = true) :
    (checkSpatialConflict dist cosd fd f.data).hasConflict = false := by
  have hmem : f ∈ conflictCandidates reg fd.scheduledStart fd.scheduledEnd none := by
    rw [conflictCandidates, List.mem_filter]
    refine ⟨hf, ?_⟩
    rw [nonTerminal_eq] at hstat
    simp [hstat, ht1, ht2]
  rw [checkFlightConflicts] at hnil
  have hfn := List.filterMap_eq_nil_iff.mp hnil f hmem
  cases hsp : (checkSpatialConflict dist cosd fd f.data).hasConflict with
  | false => rfl
  | true =>
      exfalso
      simp only [halt, if_true, hsp] at hfn
      simp at hfn

/-- Claim C1: starting from the empty registry, after every
`SubmitFlight` call — successful or not — no two distinct non-terminal
stored flights overlap in time, sit within 30 m of vertical separation
and conflict spatially under the code's separation tests. -/
theorem C1_conflict_freedom (env : Env)
    (hsym : ∀ p q, env.dist p q = env.dist q p)
    (reg : List Stored) (hreach : Reachable env reg) :
    ConflictFree env.dist env.cosd reg := by
  induction hreach with
  | nil => intro f hf; simp at hf
  | submit reg now uid fd newId hr hfresh ih =>
      intro f hf g hg hid hnf hng hcon
      simp only [submitFlight] at hf hg
      rcases List.mem_append.mp hf with hf' | hf' <;>
        rcases List.mem_append.mp hg with hg' | hg'
      · exact ih f hf' g hg' hid hnf hng hcon
      · have hgb := List.mem_singleton.mp hg'
        subst hgb
        cases hv : (validateFlightRequest env now reg fd).isValid with
        | false => simp only [hv, if_false] at hng; simp [nonTerminal] at hng
        | true =>
            have hempty : checkFlightConflicts env.dist env.cosd reg fd none = [] := by
              have hvv := hv
              simp only [validateFlightRequest, Bool.and_eq_true] at hvv
              exact List.isEmpty_iff.mp hvv.2
            obtain ⟨ht1, ht2, halt, hsp⟩ := hcon
            have hres := conflicts_nil_no_spatial env.dist env.cosd reg fd hempty
              f hf' hnf ht2 ht1 (by rw [altitudeOverlap_symm]; exact halt)
            rw [spatial_hasConflict_symm env.dist env.cosd hsym] at hres
            rw [hsp] at hres
            exact Bool.true_eq_false.mp hres
      · have hfb := List.mem_singleton.mp hf'
        subst hfb
        cases hv : (validateFlightRequest env now reg fd).isValid with
        | false => simp only [hv, if_false] at hnf; simp [nonTerminal] at hnf
        | true =>
            have hempty : checkFlightConflicts env.dist env.cosd reg fd none = [] := by
              have hvv := hv
              simp only [validateFlightRequest, Bool.and_eq_true] at hvv
              exact List.isEmpty_iff.mp hvv.2
            obtain ⟨ht1, ht2, halt, hsp⟩ := hcon
            have hres := conflicts_nil_no_spatial env.dist env.cosd reg fd hempty
              g hg' hng ht1 ht2 halt
            rw [hsp] at hres
            exact Bool.true_eq_false.mp hres
      · have hfb := List.mem_singleton.mp hf'
        have hgb := List.mem_singleton.mp hg'
        subst hfb
        subst hgb
        exact hid rfl

/-- Claim C1 witness: the invariant at a concrete one-submission
registry. -/
theorem C1_witness :
    ConflictFree envC1.dist envC1.cosd
      (submitFlight envC1 0 [] 7 ⟨none, none, none, 0, 1⟩ 3).1 :=
  C1_conflict_freedom envC1 (fun _ _ => rfl) _
    (Reachable.submit [] 0 7 ⟨none, none, none, 0, 1⟩ 3 Reachable.nil
      (by intro f hf; cases hf))

end KDTSM
